import Mathlib

/-!
Verification development for the PROFINET RSI dissector
(plugins/epan/profinet/packet-pn-rsi.c).

The definitions below are a shallow embedding of the dissector: pure
value-level functions mirror the field extractions, the opcode dispatch,
the length computations and the reassembly control flow of the C source.
Line numbers in the doc comments refer to packet-pn-rsi.c.
-/

set_option maxRecDepth 4096

namespace PnRsi

/-- Masking commutes with right shift: extracting a masked sub-field and
right-aligning it equals shifting first and applying the right-aligned
mask. -/
theorem and_mask_shiftRight (m k v : Nat) :
    (v &&& m) >>> k = (v >>> k) &&& (m >>> k) := by
  apply Nat.eq_of_testBit_eq
  intro i
  rw [Nat.testBit_shiftRight, Nat.testBit_and, Nat.testBit_and,
    Nat.testBit_shiftRight, Nat.testBit_shiftRight]

/-! ## Bitfield extraction for FOpnumOffset

The 32-bit FOpnumOffset word is read once (dissect_FOpnumOffset, lines
249-266) and the three sub-fields are derived by masking that single
stored word:
  - lines 552-553 / 647-648:
      u32FOpnumOffsetOpnum  = (u32FOpnumOffset & 0x1F000000) >> 24
      u32FOpnumOffsetOffset =  u32FOpnumOffset & 0x00FFFFFF
  - the CallSequence sub-field is extracted by the registered field mask
    0xE0000000 (hf_pn_rsi_f_opnum_offset_callsequence, line 1219), whose
    display value is the masked word shifted right by 29.
-/

/-- Sub-field mask of FOpnumOffset.Offset (hf table, line 1209). -/
def fOpnumOffset_offset_mask : Nat := 0x00FFFFFF

/-- Sub-field mask of FOpnumOffset.Opnum (hf table, line 1214). -/
def fOpnumOffset_opnum_mask : Nat := 0x1F000000

/-- Sub-field mask of FOpnumOffset.CallSequence (hf table, line 1219). -/
def fOpnumOffset_callsequence_mask : Nat := 0xE0000000

/-- Offset sub-field: u32FOpnumOffset & 0x00FFFFFF (lines 553, 648). -/
def u32FOpnumOffsetOffset (v : Nat) : Nat := v &&& fOpnumOffset_offset_mask

/-- Opnum sub-field: (u32FOpnumOffset & 0x1F000000) >> 24 (lines 552, 647). -/
def u32FOpnumOffsetOpnum (v : Nat) : Nat := (v &&& fOpnumOffset_opnum_mask) >>> 24

/-- CallSequence sub-field: masked with 0xE0000000 and right-aligned by the
29-bit shift implied by the mask (hf table, line 1219). -/
def u32FOpnumOffsetCallSequence (v : Nat) : Nat :=
  (v &&& fOpnumOffset_callsequence_mask) >>> 29

/-! ## AdditionalFlags byte (dissect_RSIAdditionalFlags, lines 692-728)

The flags byte is read once; the six registered sub-fields carve it up by
the masks 0x07, 0x08, 0x10, 0x20, 0x40, 0x80 (hf table, lines 1157-1186).
dissect_PNIO_RSI additionally computes
  u8MoreFrag = (u8AddFlags >> 5) & 0x1   (line 782)
and dissect_RSIAdditionalFlags computes, for its summary text,
  u8Tack = ((u8AddFlags & 0x10) == 0x10) ? 1 : 0   (lines 722-723).
-/

/-- WindowSize sub-field, mask 0x07 (hf table, line 1159). -/
def addFlags_windowsize (v : Nat) : Nat := v &&& 0x07

/-- Reserved bit 3 sub-field, mask 0x08 (hf table, line 1164). -/
def addFlags_reserved1 (v : Nat) : Nat := (v &&& 0x08) >>> 3

/-- TACK sub-field, mask 0x10 (hf table, line 1169). -/
def addFlags_tack (v : Nat) : Nat := (v &&& 0x10) >>> 4

/-- MoreFrag sub-field, mask 0x20 (hf table, line 1174). -/
def addFlags_morefrag (v : Nat) : Nat := (v &&& 0x20) >>> 5

/-- Notification sub-field, mask 0x40 (hf table, line 1179). -/
def addFlags_notification (v : Nat) : Nat := (v &&& 0x40) >>> 6

/-- Reserved bit 7 sub-field, mask 0x80 (hf table, line 1184). -/
def addFlags_reserved2 (v : Nat) : Nat := (v &&& 0x80) >>> 7

/-- The MoreFrag flag as computed by dissect_PNIO_RSI, line 782 (and the
security variant, line 923): (u8AddFlags >> 5) & 0x1. -/
def u8MoreFrag (v : Nat) : Nat := (v >>> 5) &&& 0x1

/-- The TACK value printed in the AddFlags summary (lines 722-723). -/
def u8TackSummary (v : Nat) : Nat := if v &&& 0x10 == 0x10 then 1 else 0

/-- The WindowSize value printed in the AddFlags summary (line 721):
note the source uses the mask 0x03 here, narrower than the registered
0x07 field mask. -/
def u8WindowSizeSummary (v : Nat) : Nat := v &&& 0x03

/-- Reconstruction of the flags byte from the six registered sub-fields,
each shifted back to its bit position. -/
def addFlags_reassemble (v : Nat) : Nat :=
  addFlags_windowsize v |||
  (addFlags_reserved1 v <<< 3) |||
  (addFlags_tack v <<< 4) |||
  (addFlags_morefrag v <<< 5) |||
  (addFlags_notification v <<< 6) |||
  (addFlags_reserved2 v <<< 7)

/-! ## FREQ opcode dispatch (dissect_FREQ_RTA_block, lines 544-608)

The switch on u32FOpnumOffsetOpnum selects the block decoder.  Reserved
opcodes (1 and the default branch) call dissect_pn_undecoded over the
whole captured buffer length (lines 562-565, 602-605). -/

/-- The block decoder selected for a FREQ PDU. -/
inductive FreqBlockChoice where
  | connBlock
  | svcsBlock
  | secAssocControlBlock
  | undecodedRest (markLen : Nat)
  deriving DecidableEq

/-- The switch statement of dissect_FREQ_RTA_block (lines 554-606), on the
already-extracted opnum.  bufLen is tvb_captured_length(tvb), the length
handed to dissect_pn_undecoded in the reserved branches. -/
def freqSwitch (opnum dsap bufLen : Nat) : FreqBlockChoice :=
  match opnum with
  | 0x0 => if dsap == 0xFFFF then .connBlock else .svcsBlock
  | 0x1 => .undecodedRest bufLen
  | 0x2 => .svcsBlock
  | 0x3 => .svcsBlock
  | 0x4 => .svcsBlock
  | 0x5 => .connBlock
  | 0x6 => .connBlock
  | 0x7 => .svcsBlock
  | 0x8 => .svcsBlock
  | 0x9 => .svcsBlock
  | 0xA => .secAssocControlBlock
  | _ => .undecodedRest bufLen

/-- dissect_FREQ_RTA_block reads the 32-bit FOpnumOffset word, extracts
the opnum (line 552) and dispatches on it (lines 554-606). -/
def dissect_FREQ_RTA_select (v dsap bufLen : Nat) : FreqBlockChoice :=
  freqSwitch (u32FOpnumOffsetOpnum v) dsap bufLen

/-- dissect_SecurityAssociationContol_block reads the 7-byte
identification sub-block (VendorID, DeviceID, InstanceID, Interface,
1 padding byte) only inside the u32FOpnumOffsetOffset == 0 branch and
only when DestinationServiceAccessPoint == 0xFFFF (lines 511-527). -/
def sacIncludesIdentificationBlock (fOpnumOffsetVal dsap : Nat) : Bool :=
  fOpnumOffsetVal == 0 && dsap == 0xFFFF

/-! ## Payload length computation (C5)

All four block decoders compute
  int32_t length = u32FOpnumOffsetOffset + u16VarPartLen - 4 - u32RsiHeaderSize
with u32RsiHeaderSize = 4 (lines 415-419, 454-457, 503-506, 615-618).
The operands are unsigned, so the expression is evaluated modulo 2^32 and
the result is reinterpreted as a signed 32-bit value; the payload is
handed to dissect_pn_rta_remaining_user_data_bytes only when length > 0
(lines 434, 482, 535, 630). -/

/-- The length expression as the C code evaluates it: 32-bit unsigned
wraparound subtraction followed by the int32_t reinterpretation. -/
def rsiPayloadLength (off varLen : Nat) : Int :=
  let u32RsiHeaderSize : Int := 4
  let u : Int := ((off : Int) + (varLen : Int) - 4 - u32RsiHeaderSize) % (2 ^ 32)
  if u < 2 ^ 31 then u else u - 2 ^ 32

/-- Observable outcome of one block decoder invocation. -/
structure BlockDecodeResult where
  /-- bytes of fixed fields consumed before the payload test -/
  fixedFieldBytes : Nat
  /-- whether the header-is-at-first-segment text was appended -/
  headerDeferredNote : Bool
  /-- whether the remaining bytes are handed to the reassembly engine -/
  handsOffPayload : Bool
  deriving DecidableEq

/-- dissect_RSI_SVCS_block (lines 408-439): RspMaxLength (4 bytes) when
Offset == 0; deferred-header note when Offset != 0 and MoreFrag == 0;
payload handoff iff length > 0. -/
def dissect_RSI_SVCS_block (varLen off moreFrag : Nat) : BlockDecodeResult :=
  let length := rsiPayloadLength off varLen
  { fixedFieldBytes := if off == 0 then 4 else 0
    headerDeferredNote := off != 0 && moreFrag == 0
    handsOffPayload := decide (0 < length) }

/-- dissect_RSI_CONN_block (lines 442-488): RspMaxLength, VendorID,
DeviceID, InstanceID, Interface and 1 padding byte when Offset == 0. -/
def dissect_RSI_CONN_block (varLen off moreFrag : Nat) : BlockDecodeResult :=
  let length := rsiPayloadLength off varLen
  { fixedFieldBytes := if off == 0 then 4 + 2 + 2 + 2 + 1 + 1 else 0
    headerDeferredNote := off != 0 && moreFrag == 0
    handsOffPayload := decide (0 < length) }

/-- dissect_SecurityAssociationContol_block (lines 491-541): RspMaxLength
plus, when DestinationServiceAccessPoint == 0xFFFF, the identification
quad and padding, all only when Offset == 0. -/
def dissect_SecurityAssociationContol_block
    (varLen off moreFrag dsap : Nat) : BlockDecodeResult :=
  let length := rsiPayloadLength off varLen
  { fixedFieldBytes :=
      if off == 0 then (if dsap == 0xFFFF then 4 + 2 + 2 + 2 + 1 + 1 else 4) else 0
    headerDeferredNote := off != 0 && moreFrag == 0
    handsOffPayload := decide (0 < length) }

/-- dissect_RSI_RSP_block (lines 611-636): a PNIO status sub-record
(external decoder, statusBytes wide) when Offset == 0. -/
def dissect_RSI_RSP_block (varLen off moreFrag statusBytes : Nat) : BlockDecodeResult :=
  let length := rsiPayloadLength off varLen
  { fixedFieldBytes := if off == 0 then statusBytes else 0
    headerDeferredNote := off != 0 && moreFrag == 0
    handsOffPayload := decide (0 < length) }

/-! ## Reassembly engine
(dissect_pn_rta_remaining_user_data_bytes, lines 313-405)

One invocation of the function is abstracted by the per-arrival inputs it
branches on: the frame number (pinfo->fd->num), the visited flag
(pinfo->fd->visited), the MoreFrag flag, whether fragment_get found an
in-progress group (fd_frag) and what fragment_get_reassembled_id returns
before and after the conditional fragment_add_seq_next call (fd_reass is
re-queried at line 368 when the frame is dissected for the first time).
A completed reassembly is abstracted by its reassembled_in frame number.
The conversation is always available: find_conversation falls back to
conversation_new (lines 330-333, 343-346), so conv is never NULL. -/

/-- The inputs one call of the reassembly handler branches on. -/
structure RtaArrival where
  frameNum : Nat
  visited : Bool
  moreFrag : Nat
  fdFragPresent : Bool
  fdReassPre : Option Nat
  fdReassPost : Option Nat
  opnum : Nat
  deriving DecidableEq

/-- The standalone test at line 354:
if (!u8MoreFrag && !fd_frag && !fd_reass). -/
def rtaStandaloneCheck (a : RtaArrival) : Bool :=
  a.moreFrag == 0 && !a.fdFragPresent && a.fdReassPre.isNone

/-- fragment_add_seq_next (line 363) runs only past the standalone early
return and only under the !pinfo->fd->visited test at line 361. -/
def rtaAddSeqNextCalled (a : RtaArrival) : Bool :=
  !(rtaStandaloneCheck a) && !a.visited

/-- The fd_reass value in force after the conditional re-query at
line 368. -/
def rtaFdReassUsed (a : RtaArrival) : Option Nat :=
  if !a.visited then a.fdReassPost else a.fdReassPre

/-- What one call of the reassembly handler does with the payload. -/
inductive RtaAction where
  /-- standalone segment: dissect_blocks on the current buffer (line 356) -/
  | standaloneDecode
  /-- completing arrival: dissect_rsi_blocks over the reassembled buffer,
  with the opnum that was passed in (line 386) -/
  | reassembledDecode (opnum : Nat)
  /-- other arrival of a completed group: generated reassembled-in
  back-reference (lines 397-400) -/
  | reassembledInBackref (frame : Nat)
  /-- segment of an incomplete group: only the segment info text -/
  | segmentOnly
  deriving DecidableEq

/-- Branch structure of dissect_pn_rta_remaining_user_data_bytes
(lines 353-404). -/
def dissect_pn_rta_remaining_action (a : RtaArrival) : RtaAction :=
  if rtaStandaloneCheck a then .standaloneDecode
  else
    match rtaFdReassUsed a with
    | some rin =>
        if a.frameNum == rin then .reassembledDecode a.opnum
        else .reassembledInBackref rin
    | none => .segmentOnly

/-- Recognizer for the reassembled-decode outcome. -/
def RtaAction.isReassembledDecode : RtaAction → Bool
  | .reassembledDecode _ => true
  | _ => false

/-! ## Plain and security-wrapped PDU decode
(dissect_PNIO_RSI, lines 731-819;
dissect_PNIO_RSI_with_security, lines 822-986)

The decode is abstracted as the ordered list of fields the function
emits plus the expert diagnostics and the final offset.  Sub-decoders
that live in other translation units (dissect_PNIO_status,
dissect_pn_user_data, dissect_pn_undecoded) and the two RTA block
handlers appear as single markers; their byte advance enters the final
offset as a parameter. -/

/-- One decoded field or sub-decoder invocation, in emission order. -/
inductive RsiField where
  | dstSAP
  | srcSAP
  | pduTypeField
  | addFlagsField
  | sendSeqNumField
  | ackSeqNumField
  | varPartLenField
  | pnioStatus
  | freqBlockFields
  | frspBlockFields
  | undecodedRest (len : Nat)
  | vendorIdField
  | deviceIdField
  | errorInfoData
  | secInformationField
  | secControlField
  | secSeqCounterField
  | secLengthField
  | securityChecksumField
  | securityDataField (len : Nat)
  deriving DecidableEq

/-- Expert diagnostics the dissector can attach (ei_pn_rsi_error,
line 109, used only in dissect_PDRsiInstances_block, lines 1052-1053). -/
inductive ExpertDiag where
  | blockVersionNotImplemented (hi lo : Nat)
  deriving DecidableEq

/-- The 12-byte RSI transport header field order common to the plain
variant (lines 757-788). -/
def plainRsiHeaderFields : List RsiField :=
  [.dstSAP, .srcSAP, .pduTypeField, .addFlagsField,
   .sendSeqNumField, .ackSeqNumField, .varPartLenField]

/-- The plain variant's PDU-type switch (lines 790-813).  bufLen is
tvb_captured_length, handed to dissect_pn_undecoded by the default
branch. -/
def plainRsiBody (pduType bufLen : Nat) : List RsiField :=
  match pduType &&& 0x0F with
  | 3 => []
  | 4 => [.pnioStatus]
  | 5 => [.freqBlockFields]
  | 6 => [.frspBlockFields]
  | _ => [.undecodedRest bufLen]

/-- dissect_PNIO_RSI: the field order of the plain PDU decode. -/
def dissect_PNIO_RSI_fields (pduType bufLen : Nat) : List RsiField :=
  plainRsiHeaderFields ++ plainRsiBody pduType bufLen

/-- The PDU-type switch inside the ProtectionMode == 0 branch of the
security variant (lines 931-963).  It matches the plain switch except
that the ERR-RTA case additionally decodes a VendorDeviceErrorInfo
record (VendorID, DeviceID, user data) when bytes remain after the
status sub-record (lines 944-952). -/
def securityAuthBody (pduType bufLen : Nat) (errBytesRemain : Bool) :
    List RsiField :=
  match pduType &&& 0x0F with
  | 3 => []
  | 4 => [.pnioStatus] ++
      (if errBytesRemain then [.vendorIdField, .deviceIdField, .errorInfoData]
       else [])
  | 5 => [.freqBlockFields]
  | 6 => [.frspBlockFields]
  | _ => [.undecodedRest bufLen]

/-- The 8-byte SecurityMetaData prefix field order (lines 862-893):
Information byte, Control byte, 4-byte SecuritySequenceCounter, 2-byte
SecurityLength. -/
def securityMetaDataFields : List RsiField :=
  [.secInformationField, .secControlField, .secSeqCounterField, .secLengthField]

/-- Observable outcome of dissect_PNIO_RSI_with_security. -/
structure SecurityDissectResult where
  fields : List RsiField
  diags : List ExpertDiag
  endOffset : Nat
  deriving DecidableEq

/-- dissect_PNIO_RSI_with_security (lines 822-986).  The protection mode
is the Information byte masked with 0x0F (line 870).  After the 8-byte
SecurityMetaData prefix and the 4-byte access-point pair the function
branches: mode 0 decodes the plain 8-byte rest of the RSI header, the
PDU-type switch body (authBodyAdvance bytes) and a 16-byte
SecurityChecksum; mode 1 emits all remaining bytes (remainingLen) as one
opaque SecurityData item; any other mode value reaches neither branch
and nothing further is decoded or reported. -/
def dissect_PNIO_RSI_with_security
    (startOffset protByte pduType bufLen : Nat) (errBytesRemain : Bool)
    (authBodyAdvance remainingLen : Nat) : SecurityDissectResult :=
  let u8ProtectionMode := protByte &&& 0x0F
  let afterPrefix := startOffset + 8 + 4
  if u8ProtectionMode == 0 then
    { fields := securityMetaDataFields ++ [.dstSAP, .srcSAP] ++
        [.pduTypeField, .addFlagsField, .sendSeqNumField, .ackSeqNumField,
         .varPartLenField] ++
        securityAuthBody pduType bufLen errBytesRemain ++
        [.securityChecksumField]
      diags := []
      endOffset := afterPrefix + 8 + authBodyAdvance + 16 }
  else if u8ProtectionMode == 1 then
    { fields := securityMetaDataFields ++
        [.dstSAP, .srcSAP, .securityDataField remainingLen]
      diags := []
      endOffset := afterPrefix + remainingLen }
  else
    { fields := securityMetaDataFields ++ [.dstSAP, .srcSAP]
      diags := []
      endOffset := afterPrefix }

/-! ## PDRsiInstances block decoder
(dissect_PDRsiInstances_block, lines 1033-1121) -/

/-- One decoded PDRsiInstances field, in emission order. -/
inductive PdField where
  | numberOfEntriesField
  | vendorIdField
  | deviceIdField
  | instanceIdField
  | interfaceField
  | paddingField
  | deviceTypeField
  | orderIdField
  | imSerialNumberField
  | hwRevisionField
  | swRevisionPrefixField
  | swRevisionField
  deriving DecidableEq

/-- Bytes by which the cursor advances for each PDRsiInstances field.
The identification strings advance by their fixed width plus the 1-byte
gap, except SWRevisionPrefix (lines 1090-1119). -/
def pdFieldWidth : PdField → Nat
  | .numberOfEntriesField => 2
  | .vendorIdField => 2
  | .deviceIdField => 2
  | .instanceIdField => 2
  | .interfaceField => 1
  | .paddingField => 1
  | .deviceTypeField => 25 + 1
  | .orderIdField => 20 + 1
  | .imSerialNumberField => 16 + 1
  | .hwRevisionField => 5 + 1
  | .swRevisionPrefixField => 1
  | .swRevisionField => 9

/-- The fixed 8-byte record decoded once per entry (lines 1062-1086). -/
def pdRsiInstanceRecordFields : List PdField :=
  [.vendorIdField, .deviceIdField, .instanceIdField, .interfaceField,
   .paddingField]

/-- The six fixed-width identification strings in their fixed order
(lines 1088-1119). -/
def pdIdentificationFields : List PdField :=
  [.deviceTypeField, .orderIdField, .imSerialNumberField, .hwRevisionField,
   .swRevisionPrefixField, .swRevisionField]

/-- Observable outcome of dissect_PDRsiInstances_block. -/
structure PdDissectResult where
  fields : List PdField
  diags : List ExpertDiag
  endOffset : Nat
  deriving DecidableEq

/-- dissect_PDRsiInstances_block: any BlockVersion other than (1,0)
yields the expert note and an immediate return with the offset unchanged
(lines 1051-1055); otherwise the 16-bit NumberOfEntries count,
numEntries fixed records, then the identification strings are decoded
and the offset advances by the sum of the field widths. -/
def dissect_PDRsiInstances_block (offset vHigh vLow numEntries : Nat) :
    PdDissectResult :=
  if vHigh != 1 || vLow != 0 then
    { fields := []
      diags := [.blockVersionNotImplemented vHigh vLow]
      endOffset := offset }
  else
    let fs := [PdField.numberOfEntriesField] ++
      (List.replicate numEntries pdRsiInstanceRecordFields).flatten ++
      pdIdentificationFields
    { fields := fs
      diags := []
      endOffset := offset + (fs.map pdFieldWidth).sum }

end PnRsi

namespace PnRsi

/-- Claim C1: for every 32-bit FOpnumOffset value, the dispatcher derives
Offset = v & 0x00FFFFFF, Opcode = (v >> 24) & 0x1F and
CallSequence = (v >> 29) & 0x7, all by masking the same stored word, and
the three masks 0x00FFFFFF, 0x1F000000, 0xE0000000 partition all 32 bits
with no overlap. -/
theorem fOpnumOffset_extraction_correct (v : Nat) (hv : v < 2 ^ 32) :
    u32FOpnumOffsetOffset v = v &&& 0x00FFFFFF ∧
    u32FOpnumOffsetOpnum v = (v >>> 24) &&& 0x1F ∧
    u32FOpnumOffsetCallSequence v = (v >>> 29) &&& 0x7 ∧
    fOpnumOffset_offset_mask ||| fOpnumOffset_opnum_mask |||
      fOpnumOffset_callsequence_mask = 0xFFFFFFFF ∧
    fOpnumOffset_offset_mask &&& fOpnumOffset_opnum_mask = 0 ∧
    fOpnumOffset_offset_mask &&& fOpnumOffset_callsequence_mask = 0 ∧
    fOpnumOffset_opnum_mask &&& fOpnumOffset_callsequence_mask = 0 := by
  refine ⟨rfl, ?_, ?_, by decide, by decide, by decide, by decide⟩
  · show (v &&& 0x1F000000) >>> 24 = (v >>> 24) &&& 0x1F
    simpa using and_mask_shiftRight 0x1F000000 24 v
  · show (v &&& 0xE0000000) >>> 29 = (v >>> 29) &&& 0x7
    simpa using and_mask_shiftRight 0xE0000000 29 v

/-- Witness for C1 at the concrete value 0xABCDEF12. -/
theorem fOpnumOffset_extraction_correct_witness :
    u32FOpnumOffsetOffset 0xABCDEF12 = 0xCDEF12 ∧
    u32FOpnumOffsetOpnum 0xABCDEF12 = 0x0B ∧
    u32FOpnumOffsetCallSequence 0xABCDEF12 = 0x5 := by
  have h := fOpnumOffset_extraction_correct 0xABCDEF12 (by decide)
  exact ⟨h.1.trans (by decide), h.2.1.trans (by decide), h.2.2.1.trans (by decide)⟩

/-- Claim C7: for every AdditionalFlags byte value,
MoreFrag = (v >> 5) & 1, TACK = (v >> 4) & 1, WindowSize = v & 0x07, and
reconstructing the byte from the sub-fields (WindowSize, TACK, MoreFrag,
Notification, and the two reserved bits) reproduces the original byte. -/
theorem addFlags_extraction_roundtrip (v : Nat) (hv : v < 256) :
    u8MoreFrag v = (v >>> 5) &&& 1 ∧
    addFlags_morefrag v = (v >>> 5) &&& 1 ∧
    addFlags_tack v = (v >>> 4) &&& 1 ∧
    u8TackSummary v = (v >>> 4) &&& 1 ∧
    addFlags_windowsize v = v &&& 0x07 ∧
    addFlags_reassemble v = v := by
  revert v
  decide

/-- For an arrival that sees a completed reassembly and is not on the
standalone path, the action is the reassembled decode when the frame
number equals reassembled_in and the generated back-reference
otherwise (lines 376-401). -/
theorem rta_action_decode_char (a : RtaArrival) (rin : Nat)
    (hused : rtaFdReassUsed a = some rin)
    (hstand : rtaStandaloneCheck a = false) :
    dissect_pn_rta_remaining_action a =
      (if a.frameNum = rin then .reassembledDecode a.opnum
       else .reassembledInBackref rin) := by
  rw [dissect_pn_rta_remaining_action, hstand, if_neg (by simp), hused]
  by_cases h : a.frameNum = rin
  · simp [h]
  · simp [h]

/-- Over a list of arrivals that all see the same completed reassembly,
the number of reassembled decodes equals the multiplicity of the
reassembled_in frame number among the arrivals. -/
theorem rta_countP_decode (rin : Nat) :
    ∀ l : List RtaArrival,
      (∀ a ∈ l, rtaFdReassUsed a = some rin ∧ rtaStandaloneCheck a = false) →
      l.countP (fun a => (dissect_pn_rta_remaining_action a).isReassembledDecode) =
        (l.map RtaArrival.frameNum).count rin
  | [], _ => by simp
  | a :: l, h => by
    have ha := h a (List.mem_cons_self a l)
    have hl := rta_countP_decode rin l (fun b hb => h b (List.mem_cons_of_mem a hb))
    rw [List.map_cons, List.countP_cons, List.count_cons, hl]
    congr 1
    rw [rta_action_decode_char a rin ha.1 ha.2]
    by_cases hf : a.frameNum = rin
    · simp [hf, RtaAction.isReassembledDecode]
    · simp [hf, RtaAction.isReassembledDecode]

/-- Claim C3: for every completed fragment group the reassembled decode
happens exactly once, at the arrival whose frame number equals the
group's reassembled_in identity, with the previously extracted opnum
passed through unchanged; every other arrival of the group is annotated
with a back-reference to that identity instead of being re-decoded. -/
theorem reassembled_decode_exactly_once :
    (∀ (a : RtaArrival) (rin : Nat),
        rtaFdReassUsed a = some rin → rtaStandaloneCheck a = false →
        ((dissect_pn_rta_remaining_action a = .reassembledDecode a.opnum ↔
            a.frameNum = rin) ∧
          (a.frameNum ≠ rin →
            dissect_pn_rta_remaining_action a = .reassembledInBackref rin))) ∧
    (∀ (group : List RtaArrival) (rin : Nat),
        (group.map RtaArrival.frameNum).Nodup →
        rin ∈ group.map RtaArrival.frameNum →
        (∀ a ∈ group, rtaFdReassUsed a = some rin ∧ rtaStandaloneCheck a = false) →
        group.countP
          (fun a => (dissect_pn_rta_remaining_action a).isReassembledDecode) = 1) := by
  constructor
  · intro a rin hused hstand
    rw [rta_action_decode_char a rin hused hstand]
    by_cases h : a.frameNum = rin
    · simp [h]
    · simp [h]
  · intro group rin hnodup hmem hall
    rw [rta_countP_decode rin group hall]
    exact List.count_eq_one_of_mem hnodup hmem

/-- Witness for C3: a two-arrival group completed at frame 7; the decode
happens once, at frame 7, with opnum 3 passed through. -/
theorem reassembled_decode_exactly_once_witness :
    dissect_pn_rta_remaining_action
        { frameNum := 7, visited := true, moreFrag := 0, fdFragPresent := true,
          fdReassPre := some 7, fdReassPost := some 7, opnum := 3 } =
      .reassembledDecode 3 ∧
    List.countP
      (fun a => (dissect_pn_rta_remaining_action a).isReassembledDecode)
      [{ frameNum := 5, visited := true, moreFrag := 1, fdFragPresent := true,
         fdReassPre := some 7, fdReassPost := some 7, opnum := 3 },
       { frameNum := 7, visited := true, moreFrag := 0, fdFragPresent := true,
         fdReassPre := some 7, fdReassPost := some 7, opnum := 3 }] = 1 := by
  have h := reassembled_decode_exactly_once
  refine ⟨?_, ?_⟩
  · exact (h.1
      { frameNum := 7, visited := true, moreFrag := 0, fdFragPresent := true,
        fdReassPre := some 7, fdReassPost := some 7, opnum := 3 } 7
      (by decide) (by decide)).1.mpr rfl
  · exact h.2
      [{ frameNum := 5, visited := true, moreFrag := 1, fdFragPresent := true,
         fdReassPre := some 7, fdReassPost := some 7, opnum := 3 },
       { frameNum := 7, visited := true, moreFrag := 0, fdFragPresent := true,
         fdReassPre := some 7, fdReassPost := some 7, opnum := 3 }] 7
      (by decide) (by decide) (by decide)

/-- Claim C4: an arrival with MoreFrag = 0 for which neither an
in-progress fragment group nor a completed reassembly exists takes the
standalone path: the block body is decoded immediately from the current
buffer and fragment_add_seq_next is never called. -/
theorem standalone_no_buffering (a : RtaArrival)
    (hm : a.moreFrag = 0) (hf : a.fdFragPresent = false)
    (hr : a.fdReassPre = none) :
    dissect_pn_rta_remaining_action a = .standaloneDecode ∧
    rtaAddSeqNextCalled a = false := by
  have hc : rtaStandaloneCheck a = true := by
    simp [rtaStandaloneCheck, hm, hf, hr]
  constructor
  · rw [dissect_pn_rta_remaining_action, hc]
    rfl
  · rw [rtaAddSeqNextCalled, hc]
    rfl

/-- Witness for C4 at a concrete unfragmented arrival. -/
theorem standalone_no_buffering_witness :
    dissect_pn_rta_remaining_action
        { frameNum := 1, visited := false, moreFrag := 0, fdFragPresent := false,
          fdReassPre := none, fdReassPost := none, opnum := 2 } =
      .standaloneDecode ∧
    rtaAddSeqNextCalled
        { frameNum := 1, visited := false, moreFrag := 0, fdFragPresent := false,
          fdReassPre := none, fdReassPost := none, opnum := 2 } = false :=
  standalone_no_buffering
    { frameNum := 1, visited := false, moreFrag := 0, fdFragPresent := false,
      fdReassPre := none, fdReassPost := none, opnum := 2 } rfl rfl rfl

/-- Claim C10: the fragment table is mutated only on a frame's first
dissection pass: fragment_add_seq_next runs only when the frame has not
been visited, so over any sequence of dissection passes of one frame of
which at most one is unvisited, the payload is appended at most once. -/
theorem fragment_add_first_pass_only :
    (∀ a : RtaArrival, rtaAddSeqNextCalled a = true → a.visited = false) ∧
    (∀ passes : List RtaArrival,
        passes.countP (fun p => !p.visited) ≤ 1 →
        passes.countP (fun p => rtaAddSeqNextCalled p) ≤ 1) := by
  constructor
  · intro a h
    rw [rtaAddSeqNextCalled, Bool.and_eq_true] at h
    simpa using h.2
  · intro passes h
    refine le_trans (List.countP_mono_left ?_) h
    intro a _ ha
    rw [rtaAddSeqNextCalled, Bool.and_eq_true] at ha
    exact ha.2

/-- Witness for C10: two passes of the same frame, the first unvisited,
the second visited; the fragment table is mutated at most once. -/
theorem fragment_add_first_pass_only_witness :
    List.countP (fun p => rtaAddSeqNextCalled p)
      [{ frameNum := 4, visited := false, moreFrag := 1, fdFragPresent := false,
         fdReassPre := none, fdReassPost := none, opnum := 0 },
       { frameNum := 4, visited := true, moreFrag := 1, fdFragPresent := true,
         fdReassPre := none, fdReassPost := none, opnum := 0 }] ≤ 1 :=
  fragment_add_first_pass_only.2
    [{ frameNum := 4, visited := false, moreFrag := 1, fdFragPresent := false,
       fdReassPre := none, fdReassPost := none, opnum := 0 },
     { frameNum := 4, visited := true, moreFrag := 1, fdFragPresent := true,
       fdReassPre := none, fdReassPost := none, opnum := 0 }] (by decide)

/-- Counterexample for claim C2: the claim states that for opcode 0xA the
SecurityAssociationControl decoder includes the 7-byte identification
sub-block exactly when DestinationServiceAccessPoint equals 0xFFFF, but a
FREQ PDU with FOpnumOffset.Offset = 4 (a legal continuation offset) and
DestinationServiceAccessPoint = 0xFFFF is routed to that decoder and the
sub-block is nevertheless absent, because the code also requires
Offset == 0 (line 511). -/
theorem freq_sac_identification_counterexample :
    dissect_FREQ_RTA_select 0x0A000004 0xFFFF 64 = .secAssocControlBlock ∧
    u32FOpnumOffsetOffset 0x0A000004 = 4 ∧
    sacIncludesIdentificationBlock (u32FOpnumOffsetOffset 0x0A000004) 0xFFFF = false := by
  decide

/-- Claim C2 (amended): for every FREQ PDU the block decoder is selected
by the extracted opcode: opcode 0 decodes as CONN iff
DestinationServiceAccessPoint = 0xFFFF and as SVCS otherwise; opcodes
2, 3, 4, 7, 8, 9 as SVCS; opcodes 5 and 6 as CONN unconditionally;
opcode 0xA via the SecurityAssociationControl decoder, which includes the
7-byte identification sub-block exactly when FOpnumOffset.Offset = 0 and
DestinationServiceAccessPoint = 0xFFFF; opcode 1 and opcodes 0xB-0x1F
emit an undecoded marker spanning the whole captured buffer. -/
theorem freq_dispatch_amended (v opnum dsap bufLen off : Nat)
    (hop : opnum = u32FOpnumOffsetOpnum v) :
    dissect_FREQ_RTA_select v dsap bufLen = freqSwitch opnum dsap bufLen ∧
    (opnum = 0x0 → freqSwitch opnum dsap bufLen =
      (if dsap = 0xFFFF then .connBlock else .svcsBlock)) ∧
    (opnum = 0x2 ∨ opnum = 0x3 ∨ opnum = 0x4 ∨ opnum = 0x7 ∨ opnum = 0x8 ∨
        opnum = 0x9 → freqSwitch opnum dsap bufLen = .svcsBlock) ∧
    (opnum = 0x5 ∨ opnum = 0x6 → freqSwitch opnum dsap bufLen = .connBlock) ∧
    (opnum = 0xA → freqSwitch opnum dsap bufLen = .secAssocControlBlock) ∧
    (opnum = 0x1 ∨ (0xB ≤ opnum ∧ opnum ≤ 0x1F) →
      freqSwitch opnum dsap bufLen = .undecodedRest bufLen) ∧
    (sacIncludesIdentificationBlock off dsap = true ↔ off = 0 ∧ dsap = 0xFFFF) := by
  subst hop
  refine ⟨rfl, ?_, ?_, ?_, ?_, ?_, ?_⟩
  · intro h
    rw [h]
    by_cases hd : dsap = 0xFFFF
    · simp [freqSwitch, hd]
    · simp [freqSwitch, hd]
  · rintro (h | h | h | h | h | h) <;> rw [h] <;> rfl
  · rintro (h | h) <;> rw [h] <;> rfl
  · intro h
    rw [h]
    rfl
  · rintro (h | ⟨h1, h2⟩)
    · rw [h]
      rfl
    · set o := u32FOpnumOffsetOpnum v with ho
      clear ho
      interval_cases o <;> rfl
  · constructor
    · intro h
      simp only [sacIncludesIdentificationBlock, Bool.and_eq_true, beq_iff_eq] at h
      exact h
    · rintro ⟨h1, h2⟩
      simp [sacIncludesIdentificationBlock, h1, h2]

/-- Witness for C2 (amended) at opnum 0 with the broadcast endpoint. -/
theorem freq_dispatch_amended_witness :
    dissect_FREQ_RTA_select 0x00000000 0xFFFF 32 = .connBlock ∧
    sacIncludesIdentificationBlock 0 0xFFFF = true := by
  have h := freq_dispatch_amended 0x00000000 0 0xFFFF 32 0 (by decide)
  refine ⟨?_, ?_⟩
  · rw [h.1, h.2.1 rfl]
    decide
  · exact (h.2.2.2.2.2.2.mpr ⟨rfl, rfl⟩)

/-- Claim C5: in the SVCS, CONN, SecurityAssociationControl and RSP block
decoders the user-payload length Offset + VarPartLen - 4 - RsiHeaderSize
(RsiHeaderSize = 4), computed with 32-bit wraparound and reinterpreted as
a signed int32, equals the exact signed value, and the payload is handed
to the reassembly engine precisely when that value is strictly
positive. -/
theorem payload_length_signed_formula
    (off varLen moreFrag dsap statusBytes : Nat)
    (hoff : off < 2 ^ 24) (hvar : varLen < 2 ^ 16) :
    rsiPayloadLength off varLen = (off : Int) + (varLen : Int) - 4 - 4 ∧
    ((dissect_RSI_SVCS_block varLen off moreFrag).handsOffPayload = true ↔
      0 < (off : Int) + (varLen : Int) - 4 - 4) ∧
    ((dissect_RSI_CONN_block varLen off moreFrag).handsOffPayload = true ↔
      0 < (off : Int) + (varLen : Int) - 4 - 4) ∧
    ((dissect_SecurityAssociationContol_block varLen off moreFrag
        dsap).handsOffPayload = true ↔
      0 < (off : Int) + (varLen : Int) - 4 - 4) ∧
    ((dissect_RSI_RSP_block varLen off moreFrag
        statusBytes).handsOffPayload = true ↔
      0 < (off : Int) + (varLen : Int) - 4 - 4) := by
  have hkey : rsiPayloadLength off varLen = (off : Int) + (varLen : Int) - 4 - 4 := by
    unfold rsiPayloadLength
    have h1 : (off : Int) < 2 ^ 24 := by exact_mod_cast hoff
    have h2 : (varLen : Int) < 2 ^ 16 := by exact_mod_cast hvar
    have h3 : (0 : Int) ≤ (off : Int) := Int.natCast_nonneg off
    have h4 : (0 : Int) ≤ (varLen : Int) := Int.natCast_nonneg varLen
    simp only []
    split <;> omega
  refine ⟨hkey, ?_, ?_, ?_, ?_⟩ <;>
    simp only [dissect_RSI_SVCS_block, dissect_RSI_CONN_block,
      dissect_SecurityAssociationContol_block, dissect_RSI_RSP_block,
      decide_eq_true_eq, hkey]

/-- Witness for C5 at Offset = 0, VarPartLen = 12: length = 4 > 0 and all
four decoders hand the payload off. -/
theorem payload_length_signed_formula_witness :
    rsiPayloadLength 0 12 = 4 ∧
    (dissect_RSI_SVCS_block 12 0 0).handsOffPayload = true := by
  have h := payload_length_signed_formula 0 12 0 0xFFFF 4 (by decide) (by decide)
  exact ⟨h.1.trans (by decide), h.2.1.mpr (by decide)⟩

/-- Outside the ERR-RTA case the security mode-0 body switch agrees with
the plain variant's switch. -/
theorem securityAuthBody_eq_plain (pduType bufLen : Nat) (e : Bool)
    (h : pduType &&& 0x0F ≠ 4) :
    securityAuthBody pduType bufLen e = plainRsiBody pduType bufLen := by
  unfold securityAuthBody plainRsiBody
  have ht : pduType &&& 0x0F ≤ 15 := Nat.and_le_right
  revert ht h
  generalize pduType &&& 0x0F = t
  intro h ht
  interval_cases t <;> first | rfl | exact absurd rfl h

/-- In the ERR-RTA case the security mode-0 body is the plain body plus
the VendorDeviceErrorInfo record when bytes remain. -/
theorem securityAuthBody_err (pduType bufLen : Nat) (e : Bool)
    (h : pduType &&& 0x0F = 4) :
    securityAuthBody pduType bufLen e =
      plainRsiBody pduType bufLen ++
        (if e then [.vendorIdField, .deviceIdField, .errorInfoData]
         else []) := by
  unfold securityAuthBody plainRsiBody
  rw [h]

/-- Shared helper: with a protection-mode nibble outside 0 and 1 the
security decode reaches neither branch and stops after the prefix and
the access-point pair. -/
theorem security_mode_other_prefix_only
    (startOffset protByte pduType bufLen authBodyAdvance remainingLen : Nat)
    (errBytesRemain : Bool)
    (h0 : protByte &&& 0x0F ≠ 0) (h1 : protByte &&& 0x0F ≠ 1) :
    dissect_PNIO_RSI_with_security startOffset protByte pduType bufLen
        errBytesRemain authBodyAdvance remainingLen =
      { fields := securityMetaDataFields ++ [.dstSAP, .srcSAP]
        diags := []
        endOffset := startOffset + 12 } := by
  simp only [dissect_PNIO_RSI_with_security]
  rw [if_neg (by simpa using h0), if_neg (by simpa using h1)]

/-- Claim C9: for a security-wrapped input whose Information byte has a
low nibble other than 0 or 1, dissect_PNIO_RSI_with_security runs
neither protection-mode branch: it decodes only the 8-byte
SecurityMetaData prefix and the 4-byte access-point pair, emits no
diagnostic, and returns with the offset advanced by exactly 12 bytes. -/
theorem security_unknown_mode_silent
    (startOffset protByte pduType bufLen authBodyAdvance remainingLen : Nat)
    (errBytesRemain : Bool)
    (h0 : protByte &&& 0x0F ≠ 0) (h1 : protByte &&& 0x0F ≠ 1) :
    dissect_PNIO_RSI_with_security startOffset protByte pduType bufLen
        errBytesRemain authBodyAdvance remainingLen =
      { fields := securityMetaDataFields ++ [.dstSAP, .srcSAP]
        diags := []
        endOffset := startOffset + 12 } :=
  security_mode_other_prefix_only startOffset protByte pduType bufLen
    authBodyAdvance remainingLen errBytesRemain h0 h1

/-- Witness for C9 at protection byte 0x42 (low nibble 2). -/
theorem security_unknown_mode_silent_witness :
    dissect_PNIO_RSI_with_security 0 0x42 5 64 false 20 10 =
      { fields := securityMetaDataFields ++ [.dstSAP, .srcSAP]
        diags := []
        endOffset := 12 } :=
  security_unknown_mode_silent 0 0x42 5 64 20 10 false (by decide) (by decide)

/-- Counterexample for claim C6: the claim requires a stored
ProtectionMode outside 0 and 1 to be surfaced as an explicit
unrecognized-protection-mode condition, but at protection byte 0x02 the
decoder emits no diagnostic and silently decodes only the prefix and
access-point pair; moreover the mode-0 ERR-RTA body is not exactly the
plain variant's body, since it appends a VendorDeviceErrorInfo record
when bytes remain. -/
theorem security_protection_mode_counterexample :
    (dissect_PNIO_RSI_with_security 0 0x02 5 64 false 0 0).diags = [] ∧
    (dissect_PNIO_RSI_with_security 0 0x02 5 64 false 0 0).fields =
      securityMetaDataFields ++ [.dstSAP, .srcSAP] ∧
    securityAuthBody 4 64 true ≠ plainRsiBody 4 64 := by
  decide

/-- Claim C6 (amended): after the 8-byte SecurityMetaData prefix and the
4-byte access-point pair: ProtectionMode 0 decodes the plain RSI header
and dispatches on PDUType as the plain variant does, except that the
ERR-RTA case additionally decodes a VendorDeviceErrorInfo record when
bytes remain, then appends a fixed 16-byte SecurityChecksum trailer;
ProtectionMode 1 treats all remaining bytes as one opaque SecurityData
blob with no structured sub-fields; any other stored value executes
neither branch and is not reported: only the prefix and the access-point
pair are decoded. -/
theorem security_envelope_amended
    (startOffset protByte pduType bufLen authBodyAdvance remainingLen : Nat)
    (errBytesRemain : Bool) :
    (protByte &&& 0x0F = 0 →
      dissect_PNIO_RSI_with_security startOffset protByte pduType bufLen
          errBytesRemain authBodyAdvance remainingLen =
        { fields := securityMetaDataFields ++ plainRsiHeaderFields ++
            securityAuthBody pduType bufLen errBytesRemain ++
            [.securityChecksumField]
          diags := []
          endOffset := startOffset + 12 + 8 + authBodyAdvance + 16 } ∧
      (pduType &&& 0x0F ≠ 4 →
        securityAuthBody pduType bufLen errBytesRemain =
          plainRsiBody pduType bufLen) ∧
      (pduType &&& 0x0F = 4 →
        securityAuthBody pduType bufLen errBytesRemain =
          plainRsiBody pduType bufLen ++
            (if errBytesRemain then
              [.vendorIdField, .deviceIdField, .errorInfoData]
             else []))) ∧
    (protByte &&& 0x0F = 1 →
      dissect_PNIO_RSI_with_security startOffset protByte pduType bufLen
          errBytesRemain authBodyAdvance remainingLen =
        { fields := securityMetaDataFields ++
            [.dstSAP, .srcSAP, .securityDataField remainingLen]
          diags := []
          endOffset := startOffset + 12 + remainingLen }) ∧
    (protByte &&& 0x0F ≠ 0 → protByte &&& 0x0F ≠ 1 →
      dissect_PNIO_RSI_with_security startOffset protByte pduType bufLen
          errBytesRemain authBodyAdvance remainingLen =
        { fields := securityMetaDataFields ++ [.dstSAP, .srcSAP]
          diags := []
          endOffset := startOffset + 12 }) := by
  refine ⟨?_, ?_, ?_⟩
  · intro h0
    refine ⟨?_, fun h => securityAuthBody_eq_plain pduType bufLen errBytesRemain h,
      fun h => securityAuthBody_err pduType bufLen errBytesRemain h⟩
    simp only [dissect_PNIO_RSI_with_security, h0]
    rfl
  · intro h1
    simp only [dissect_PNIO_RSI_with_security, h1]
    rfl
  · intro h0 h1
    exact security_mode_other_prefix_only startOffset protByte pduType bufLen
      authBodyAdvance remainingLen errBytesRemain h0 h1

/-- Witness for C6 (amended) at protection byte 0x10 (low nibble 0),
PDUType FREQ. -/
theorem security_envelope_amended_witness :
    dissect_PNIO_RSI_with_security 0 0x10 5 64 false 24 0 =
      { fields := securityMetaDataFields ++ plainRsiHeaderFields ++
          securityAuthBody 5 64 false ++ [.securityChecksumField]
        diags := []
        endOffset := 0 + 12 + 8 + 24 + 16 } :=
  ((security_envelope_amended 0 0x10 5 64 24 0 false).1 (by decide)).1

/-- The eight record bytes per entry: the flattened replicated record
fields have total width 8 per entry. -/
theorem pdRecordWidths_sum (n : Nat) :
    ((List.replicate n pdRsiInstanceRecordFields).flatten.map pdFieldWidth).sum
      = 8 * n := by
  induction n with
  | zero => simp
  | succ k ih =>
    rw [List.replicate_succ, List.flatten_cons, List.map_append,
      List.sum_append, ih]
    simp [pdRsiInstanceRecordFields, pdFieldWidth]
    omega

/-- Claim C8: dissect_PDRsiInstances_block accepts exactly BlockVersion
(1,0); any other version yields the non-fatal unsupported-version
diagnostic and an unchanged offset with no structured fields; with
version (1,0) it decodes the 16-bit NumberOfEntries count, exactly that
many fixed 8-byte records (VendorID 16-bit, DeviceID 16-bit, InstanceID
16-bit, Interface 8-bit, 1 padding byte) and the six fixed-width
identification strings in fixed order with their gap bytes. -/
theorem pdRsiInstances_version_gate (offset vHigh vLow n : Nat) :
    (¬(vHigh = 1 ∧ vLow = 0) →
      dissect_PDRsiInstances_block offset vHigh vLow n =
        { fields := []
          diags := [.blockVersionNotImplemented vHigh vLow]
          endOffset := offset }) ∧
    (dissect_PDRsiInstances_block offset 1 0 n).diags = [] ∧
    (dissect_PDRsiInstances_block offset 1 0 n).fields =
      [.numberOfEntriesField] ++
        (List.replicate n pdRsiInstanceRecordFields).flatten ++
        pdIdentificationFields ∧
    (dissect_PDRsiInstances_block offset 1 0 n).endOffset =
      offset + 2 + 8 * n + 80 ∧
    pdRsiInstanceRecordFields.map pdFieldWidth = [2, 2, 2, 1, 1] ∧
    pdIdentificationFields.map pdFieldWidth = [26, 21, 17, 6, 1, 9] := by
  refine ⟨?_, ?_, ?_, ?_, by decide, by decide⟩
  · intro h
    have hc : (vHigh != 1 || vLow != 0) = true := by
      simp only [bne_iff_ne, Bool.or_eq_true, ne_eq]
      by_contra hcon
      push_neg at hcon
      exact h ⟨hcon.1, hcon.2⟩
    rw [dissect_PDRsiInstances_block, if_pos hc]
  · rw [dissect_PDRsiInstances_block, if_neg (by decide)]
  · rw [dissect_PDRsiInstances_block, if_neg (by decide)]
  · rw [dissect_PDRsiInstances_block, if_neg (by decide)]
    simp only [List.map_append, List.sum_append, pdRecordWidths_sum,
      pdIdentificationFields, pdFieldWidth, List.map_cons, List.map_nil,
      List.sum_cons, List.sum_nil]
    omega

/-- Witness for C8: version (2,0) is rejected with the diagnostic and an
unchanged offset; version (1,0) with two entries ends 98 bytes past the
count field start. -/
theorem pdRsiInstances_version_gate_witness :
    dissect_PDRsiInstances_block 10 2 0 3 =
      { fields := []
        diags := [.blockVersionNotImplemented 2 0]
        endOffset := 10 } ∧
    (dissect_PDRsiInstances_block 5 1 0 2).endOffset = 103 :=
  ⟨(pdRsiInstances_version_gate 10 2 0 3).1 (by decide),
    (pdRsiInstances_version_gate 5 1 0 2).2.2.2.1.trans (by norm_num)⟩

/-- Witness for C7 at the concrete flags byte 0xAB. -/
theorem addFlags_extraction_roundtrip_witness :
    u8MoreFrag 0xAB = 1 ∧ addFlags_tack 0xAB = 0 ∧
    addFlags_windowsize 0xAB = 3 ∧ addFlags_reassemble 0xAB = 0xAB := by
  have h := addFlags_extraction_roundtrip 0xAB (by decide)
  exact ⟨h.1.trans (by decide), h.2.2.1.trans (by decide),
    h.2.2.2.2.1.trans (by decide), h.2.2.2.2.2⟩

end PnRsi
